import Mathlib

/-!
Shallow embedding of the voice-assistant home screen
(`src/screens/home.screen.tsx`).  Each handler of the screen is embedded as
a pure function from an environment (the outcomes of the external calls it
makes) and the current component state to the final component state paired
with the trace of observable actions it performs (network posts, delays,
user-facing alerts, timer operations, speech).
-/

/-- The component state: the `useState` hooks of `HomeScreen`.
`hasRecording` models whether the `recording` hook holds a recording object. -/
structure ScreenState where
  text : String
  isRecording : Bool
  loading : Bool
  hasRecording : Bool
  AIResponse : Bool
  AISpeaking : Bool
deriving DecidableEq, Repr

/-- Initial hook values: empty text, all flags false. -/
def initState : ScreenState :=
  { text := "", isRecording := false, loading := false, hasRecording := false,
    AIResponse := false, AISpeaking := false }

/-- Observable actions performed by the handlers. -/
inductive Act where
  | requestPermission
  | setAudioMode (allowsRecording : Bool)
  | createRecording
  | stopAndUnload
  | delay (ms : Nat)
  | postWhisper (uri : String) (attempt : Nat)
  | postGpt (input : String)
  | timerStart (ms : Nat)
  | timerClear
  | abortSignal
  | speak (t : String)
  | alert (title msg : String)
deriving DecidableEq, Repr

/-- Outcome of one upload to the transcription endpoint: a response with a
`text` field, an axios error with HTTP status 429, or any other error. -/
inductive HttpResult where
  | ok (text : String)
  | rateLimited
  | otherError
deriving DecidableEq, Repr

/-- Outcome of the chat-completion request: it settles (resolves with the
`choices` array, or rejects) `atMs` milliseconds after the timer is armed. -/
inductive GptOutcome where
  | resolves (choices : List String) (atMs : Nat)
  | rejects (atMs : Nat)
deriving DecidableEq, Repr

/-- Milliseconds after which the chat-completion request settles. -/
def settleMs : GptOutcome → Nat
  | .resolves _ a => a
  | .rejects a => a

/-- Outcome of the microphone permission request. -/
inductive PermResult where
  | granted
  | denied
  | errored
deriving DecidableEq, Repr

/-- Environment: outcomes of every external call a cycle can make.
`whisper n` is the result of the n-th upload attempt (n starting at 1). -/
structure Env where
  apiKeyPresent : Bool
  permission : PermResult
  audioModeOk : Bool
  createRecordingOk : Bool
  stopOk : Bool
  uri : Option String
  whisper : Nat → HttpResult
  gpt : GptOutcome

/-- `getMicrophonePermission` (lines 34-47): request permission; on denial
or error, alert and report false. -/
def getMicrophonePermission (env : Env) : Bool × List Act :=
  match env.permission with
  | .granted => (true, [.requestPermission])
  | .denied =>
      (false, [.requestPermission,
               .alert "Permission" "Please grant permission to access the microphone."])
  | .errored =>
      (false, [.requestPermission,
               .alert "Error" "Failed to get microphone permission."])

/-- `startRecording` (lines 49-73): missing key aborts before the permission
request; then permission; then audio mode, `setIsRecording(true)`,
`createAsync`, `setRecording`.  The catch handler only alerts: a failure
after `setIsRecording(true)` leaves the flag set. -/
def startRecording (env : Env) (s : ScreenState) : ScreenState × List Act :=
  if env.apiKeyPresent = false then
    (s, [.alert "Configuration Error" "OpenAI API Key is missing."])
  else
    let p := getMicrophonePermission env
    if p.1 = false then (s, p.2)
    else if env.audioModeOk = false then
      (s, p.2 ++ [.setAudioMode true, .alert "Error" "Failed to start recording."])
    else if env.createRecordingOk = false then
      ({ s with isRecording := true },
       p.2 ++ [.setAudioMode true, .createRecording,
               .alert "Error" "Failed to start recording."])
    else
      ({ s with isRecording := true, hasRecording := true },
       p.2 ++ [.setAudioMode true, .createRecording])

/-- The loop of `sendAudioToWhisper` (lines 108-149), with the remaining
number of loop iterations (`retries + 1 - attempt`) as structural fuel.
Each iteration posts the upload; on success it returns the `text` field; on
a 429 at the last attempt it alerts and stops; on an earlier 429 it waits
`2 ^ attempt * 1000` ms and retries; on any other error it alerts and stops. -/
def whisperLoop (u : String) (resp : Nat → HttpResult) (retries : Nat) :
    Nat → Nat → Option String × List Act
  | _, 0 => (none, [])
  | attempt, _fuel + 1 =>
    match resp attempt with
    | .ok t => (some t, [.postWhisper u attempt])
    | .rateLimited =>
      if attempt = retries then
        (none, [.postWhisper u attempt,
                .alert "Rate Limit Reached"
                  "Too many requests. Please wait a moment and try again."])
      else
        let rest := whisperLoop u resp retries (attempt + 1) _fuel
        (rest.1, .postWhisper u attempt :: .delay (2 ^ attempt * 1000) :: rest.2)
    | .otherError =>
      (none, [.postWhisper u attempt,
              .alert "Error" "Failed to transcribe audio."])

/-- `sendAudioToWhisper` (lines 102-151): a 500 ms warm-up delay, then the
retry loop starting at attempt 1; `null` (here `none`) when no attempt
succeeded. -/
def sendAudioToWhisper (u : String) (resp : Nat → HttpResult) (retries : Nat) :
    Option String × List Act :=
  let rest := whisperLoop u resp retries 1 retries
  (rest.1, .delay 500 :: rest.2)

/-- `speakText` (lines 203-208): set `AISpeaking` and start speech. -/
def speakText (s : ScreenState) (t : String) : ScreenState × List Act :=
  ({ s with AISpeaking := true }, [.speak t])

/-- `sendToGpt` (lines 154-201): arm a 10 s timer that aborts the request,
clears `loading` and alerts "Timeout"; wait 500 ms; post the request.  If it
resolves before the deadline the timer is cleared, the text of the first
completion is stored, `AIResponse` is set, `loading` cleared and speech
started (an empty `choices` array throws after the timer is cleared and
falls to the catch).  If it settles at or after 10000 ms the timer fires
first (abort, clear loading, "Timeout"), then the aborted request rejects
into the catch ("Error").  If it rejects before the deadline the catch runs
("Error") but the timer is never cleared, so it still fires at 10 s. -/
def sendToGpt (o : GptOutcome) (s : ScreenState) (inputText : String) :
    ScreenState × List Act :=
  match o with
  | .resolves choices atMs =>
    if atMs < 10000 then
      match choices with
      | [] =>
        ({ s with loading := false },
         [.timerStart 10000, .delay 500, .postGpt inputText, .timerClear,
          .alert "Error" "Failed to get AI response."])
      | c :: _ =>
        let s1 := { s with text := c, AIResponse := true, loading := false }
        let sp := speakText s1 c
        (sp.1, [.timerStart 10000, .delay 500, .postGpt inputText, .timerClear] ++ sp.2)
    else
      ({ s with loading := false },
       [.timerStart 10000, .delay 500, .postGpt inputText, .abortSignal,
        .alert "Timeout" "The server took too long to respond.",
        .alert "Error" "Failed to get AI response."])
  | .rejects atMs =>
    if atMs < 10000 then
      ({ s with loading := false },
       [.timerStart 10000, .delay 500, .postGpt inputText,
        .alert "Error" "Failed to get AI response.",
        .abortSignal, .alert "Timeout" "The server took too long to respond."])
    else
      ({ s with loading := false },
       [.timerStart 10000, .delay 500, .postGpt inputText, .abortSignal,
        .alert "Timeout" "The server took too long to respond.",
        .alert "Error" "Failed to get AI response."])

/-- `stopRecording` (lines 75-100): clear `isRecording`, set `loading`,
stop and unload the recording, restore the audio mode, read the URI (absent
when there is no recording object); a missing URI throws into the catch.
Then transcribe; a truthy (non-null, non-empty) transcript is stored and
sent to the chat endpoint, otherwise `loading` is cleared. -/
def stopRecording (env : Env) (s : ScreenState) : ScreenState × List Act :=
  let s1 := { s with isRecording := false, loading := true }
  if env.stopOk = false then
    ({ s1 with loading := false },
     [.stopAndUnload, .alert "Error" "Failed to process recording."])
  else
    match (if s.hasRecording then env.uri else none) with
    | none =>
      ({ s1 with loading := false },
       [.stopAndUnload, .setAudioMode false,
        .alert "Error" "Failed to process recording."])
    | some u =>
      let w := sendAudioToWhisper u env.whisper 3
      match w.1 with
      | some t =>
        if t = "" then
          ({ s1 with loading := false },
           [.stopAndUnload, .setAudioMode false] ++ w.2)
        else
          let s2 := { s1 with text := t }
          let g := sendToGpt env.gpt s2 t
          (g.1, [.stopAndUnload, .setAudioMode false] ++ w.2 ++ g.2)
      | none =>
        ({ s1 with loading := false },
         [.stopAndUnload, .setAudioMode false] ++ w.2)

/-- The regenerate control (line 348): `onPress = () => sendToGpt(text)` —
it re-submits whatever is currently displayed in `text`. -/
def onRegenerate (o : GptOutcome) (s : ScreenState) : ScreenState × List Act :=
  sendToGpt o s s.text

/-- The microphone control is rendered only when not loading, not recording
and no response is displayed (lines 256-299). -/
def micVisible (s : ScreenState) : Bool :=
  !s.loading && !s.isRecording && !s.AIResponse

/-- The stop control is rendered only when not loading and recording
(lines 256-311). -/
def stopVisible (s : ScreenState) : Bool :=
  !s.loading && s.isRecording

/-- User events and asynchronous completions that drive the screen. -/
inductive UiEvent where
  | pressMic (env : Env)
  | pressStop (env : Env)
  | pressBack
  | pressRegenerate (o : GptOutcome)
  | pressReload
  | speechDone

/-- One step of the screen: each handler runs as gated by the rendered
controls (back, regenerate and reload render only when `AIResponse` is set,
lines 238-253 and 335-355); `speechDone` is the speech completion callback
(line 206) clearing `AISpeaking`. -/
def step (s : ScreenState) (e : UiEvent) : ScreenState :=
  match e with
  | .pressMic env => if micVisible s then (startRecording env s).1 else s
  | .pressStop env => if stopVisible s then (stopRecording env s).1 else s
  | .pressBack =>
      if s.AIResponse then
        { s with isRecording := false, AIResponse := false, text := "" }
      else s
  | .pressRegenerate o => if s.AIResponse then (onRegenerate o s).1 else s
  | .pressReload => if s.AIResponse then (speakText s s.text).1 else s
  | .speechDone => { s with AISpeaking := false }

/-- States reachable from the initial hook values through handler steps. -/
inductive Reachable : ScreenState → Prop where
  | init : Reachable initState
  | next (e : UiEvent) {s : ScreenState} : Reachable s → Reachable (step s e)

/-- The five flag combinations of the five spec states Idle, Recording,
Processing, ResponseReady, Speaking. -/
def validFive (s : ScreenState) : Prop :=
  (s.isRecording = false ∧ s.loading = false ∧ s.AIResponse = false ∧ s.AISpeaking = false) ∨
  (s.isRecording = true ∧ s.loading = false ∧ s.AIResponse = false ∧ s.AISpeaking = false) ∨
  (s.isRecording = false ∧ s.loading = true ∧ s.AIResponse = false ∧ s.AISpeaking = false) ∨
  (s.isRecording = false ∧ s.loading = false ∧ s.AIResponse = true ∧ s.AISpeaking = false) ∨
  (s.isRecording = false ∧ s.loading = false ∧ s.AIResponse = true ∧ s.AISpeaking = true)

instance (s : ScreenState) : Decidable (validFive s) := by
  unfold validFive; infer_instance

/-- The invariant the code actually maintains: the three flags
`isRecording`, `loading`, `AIResponse` always form one of the four
combinations Idle / Recording / Processing / ResponseReady;
`AISpeaking` is not synchronized with them. -/
def coreValid (s : ScreenState) : Prop :=
  (s.isRecording = false ∧ s.loading = false ∧ s.AIResponse = false) ∨
  (s.isRecording = true ∧ s.loading = false ∧ s.AIResponse = false) ∨
  (s.isRecording = false ∧ s.loading = true ∧ s.AIResponse = false) ∨
  (s.isRecording = false ∧ s.loading = false ∧ s.AIResponse = true)

instance (s : ScreenState) : Decidable (coreValid s) := by
  unfold coreValid; infer_instance

/-- All four flags false: the Idle state. -/
def isIdle (s : ScreenState) : Prop :=
  s.isRecording = false ∧ s.loading = false ∧ s.AIResponse = false ∧ s.AISpeaking = false

instance (s : ScreenState) : Decidable (isIdle s) := by
  unfold isIdle; infer_instance

/-- Is this action a post to the chat-completion endpoint? -/
def isGptPost : Act → Bool
  | .postGpt _ => true
  | _ => false

/-- Is this action a post to the transcription endpoint? -/
def isUploadAttempt : Act → Bool
  | .postWhisper _ _ => true
  | _ => false

/-- Transcription responses: 429 on the first two attempts, success on the third. -/
def respTwo429 : Nat → HttpResult :=
  fun n => if n < 3 then .rateLimited else .ok "hi"

/-- Transcription responses: 429 on every attempt. -/
def respAll429 : Nat → HttpResult := fun _ => .rateLimited

/-- Transcription responses: a non-429 error on every attempt. -/
def respOther : Nat → HttpResult := fun _ => .otherError

/-- Environment with no API credential configured. -/
def envNoKey : Env :=
  { apiKeyPresent := false, permission := .granted, audioModeOk := true,
    createRecordingOk := true, stopOk := true, uri := none,
    whisper := respOther, gpt := .rejects 0 }

/-- Environment where the microphone permission is denied. -/
def envDenied : Env :=
  { apiKeyPresent := true, permission := .denied, audioModeOk := true,
    createRecordingOk := true, stopOk := true, uri := none,
    whisper := respOther, gpt := .rejects 0 }

/-- Environment where creating the capture session fails. -/
def envStartFail : Env :=
  { apiKeyPresent := true, permission := .granted, audioModeOk := true,
    createRecordingOk := false, stopOk := true, uri := none,
    whisper := respOther, gpt := .rejects 0 }

/-- Environment of a fully successful cycle: transcript "Hello",
generated response "Hi there!". -/
def envHello : Env :=
  { apiKeyPresent := true, permission := .granted, audioModeOk := true,
    createRecordingOk := true, stopOk := true, uri := some "file.wav",
    whisper := fun _ => .ok "Hello", gpt := .resolves ["Hi there!"] 0 }

/-- Environment where transcription succeeds with an empty string. -/
def envEmptyTranscript : Env :=
  { apiKeyPresent := true, permission := .granted, audioModeOk := true,
    createRecordingOk := true, stopOk := true, uri := some "file.wav",
    whisper := fun _ => .ok "", gpt := .resolves ["Hi there!"] 0 }

/-- State with an active recording session, as after a successful start. -/
def recState : ScreenState :=
  { initState with isRecording := true, hasRecording := true }

/-- State while transcription and generation are in flight. -/
def procState : ScreenState := { initState with loading := true }

/-- State after the successful cycle driven by `envHello`: the response
"Hi there!" is displayed and being spoken. -/
def afterHelloCycle : ScreenState :=
  step (step initState (.pressMic envHello)) (.pressStop envHello)

/-- State after pressing back while the response is still being spoken. -/
def afterBackDuringSpeech : ScreenState := step afterHelloCycle .pressBack

lemma whisperLoop_ok {resp : Nat → HttpResult} {attempt : Nat} {t : String}
    (u : String) (retries fuel : Nat) (h : resp attempt = .ok t) :
    whisperLoop u resp retries attempt (fuel + 1) =
      (some t, [.postWhisper u attempt]) := by
  simp [whisperLoop, h]

lemma whisperLoop_rl_step {resp : Nat → HttpResult} {attempt retries : Nat}
    (u : String) (fuel : Nat) (h : resp attempt = .rateLimited)
    (hne : attempt ≠ retries) :
    whisperLoop u resp retries attempt (fuel + 1) =
      ((whisperLoop u resp retries (attempt + 1) fuel).1,
       .postWhisper u attempt :: .delay (2 ^ attempt * 1000) ::
         (whisperLoop u resp retries (attempt + 1) fuel).2) := by
  simp [whisperLoop, h, hne]

lemma whisperLoop_rl_last {resp : Nat → HttpResult} {retries : Nat}
    (u : String) (fuel : Nat) (h : resp retries = .rateLimited) :
    whisperLoop u resp retries retries (fuel + 1) =
      (none, [.postWhisper u retries,
              .alert "Rate Limit Reached"
                "Too many requests. Please wait a moment and try again."]) := by
  simp [whisperLoop, h]

lemma whisperLoop_other {resp : Nat → HttpResult} {attempt : Nat}
    (u : String) (retries fuel : Nat) (h : resp attempt = .otherError) :
    whisperLoop u resp retries attempt (fuel + 1) =
      (none, [.postWhisper u attempt,
              .alert "Error" "Failed to transcribe audio."]) := by
  simp [whisperLoop, h]

/-- Claim C1: on HTTP 429 with attempts remaining the client waits
2 ^ attempt seconds (attempt starting at 1) before retrying; for an
endpoint that returns 429 on the first two attempts and succeeds on the
third, the trace is the 500 ms warm-up, attempt 1, a 2000 ms wait,
attempt 2, a 4000 ms wait, attempt 3, and the text field of the third
response is returned. -/
theorem whisper_retry_backoff (u t : String) (resp : Nat → HttpResult)
    (h1 : resp 1 = .rateLimited) (h2 : resp 2 = .rateLimited)
    (h3 : resp 3 = .ok t) :
    sendAudioToWhisper u resp 3 =
      (some t, [.delay 500, .postWhisper u 1, .delay 2000, .postWhisper u 2,
                .delay 4000, .postWhisper u 3]) ∧
    (∀ retries attempt fuel, attempt < retries → resp attempt = .rateLimited →
      (whisperLoop u resp retries attempt (fuel + 1)).2 =
        .postWhisper u attempt :: .delay (2 ^ attempt * 1000) ::
          (whisperLoop u resp retries (attempt + 1) fuel).2) := by
  constructor
  · show ((whisperLoop u resp 3 1 3).1, Act.delay 500 :: (whisperLoop u resp 3 1 3).2) = _
    rw [whisperLoop_rl_step u 2 h1 (by decide), whisperLoop_rl_step u 1 h2 (by decide),
        whisperLoop_ok u 3 0 h3]
    rfl
  · intro retries attempt fuel hlt h
    rw [whisperLoop_rl_step u fuel h (Nat.ne_of_lt hlt)]

/-- Witness for C1 at a concrete endpoint simulation. -/
theorem whisper_retry_backoff_witness :
    sendAudioToWhisper "tape.wav" respTwo429 3 =
      (some "hi", [.delay 500, .postWhisper "tape.wav" 1, .delay 2000,
                   .postWhisper "tape.wav" 2, .delay 4000, .postWhisper "tape.wav" 3]) :=
  (whisper_retry_backoff "tape.wav" "hi" respTwo429 rfl rfl rfl).1

/-- Claim C2: against an endpoint returning 429 on every attempt the client
performs exactly 3 uploads (never a 4th), surfaces the rate-limit notice
after the third, and returns failure. -/
theorem whisper_rate_limit_exhaustion (u : String) (resp : Nat → HttpResult)
    (h : ∀ n, resp n = .rateLimited) :
    sendAudioToWhisper u resp 3 =
      (none, [.delay 500, .postWhisper u 1, .delay 2000, .postWhisper u 2,
              .delay 4000, .postWhisper u 3,
              .alert "Rate Limit Reached"
                "Too many requests. Please wait a moment and try again."]) ∧
    (sendAudioToWhisper u resp 3).2.countP isUploadAttempt = 3 := by
  have e : sendAudioToWhisper u resp 3 =
      (none, [.delay 500, .postWhisper u 1, .delay 2000, .postWhisper u 2,
              .delay 4000, .postWhisper u 3,
              .alert "Rate Limit Reached"
                "Too many requests. Please wait a moment and try again."]) := by
    show ((whisperLoop u resp 3 1 3).1, Act.delay 500 :: (whisperLoop u resp 3 1 3).2) = _
    rw [whisperLoop_rl_step u 2 (h 1) (by decide), whisperLoop_rl_step u 1 (h 2) (by decide),
        whisperLoop_rl_last u 0 (h 3)]
    rfl
  refine ⟨e, ?_⟩
  rw [e]
  rfl

/-- Witness for C2 at a concrete endpoint simulation. -/
theorem whisper_rate_limit_exhaustion_witness :
    sendAudioToWhisper "tape.wav" respAll429 3 =
      (none, [.delay 500, .postWhisper "tape.wav" 1, .delay 2000,
              .postWhisper "tape.wav" 2, .delay 4000, .postWhisper "tape.wav" 3,
              .alert "Rate Limit Reached"
                "Too many requests. Please wait a moment and try again."]) :=
  (whisper_rate_limit_exhaustion "tape.wav" respAll429 (fun _ => rfl)).1

/-- Claim C3: when the first upload fails with anything other than 429 the
client alerts the generic transcription failure and returns failure after
that single attempt, with no retry and no backoff wait; in general any
attempt failing with a non-429 error stops the loop immediately. -/
theorem whisper_other_error_no_retry (u : String) (resp : Nat → HttpResult)
    (h : resp 1 = .otherError) :
    sendAudioToWhisper u resp 3 =
      (none, [.delay 500, .postWhisper u 1,
              .alert "Error" "Failed to transcribe audio."]) ∧
    (∀ retries attempt fuel, resp attempt = .otherError →
      whisperLoop u resp retries attempt (fuel + 1) =
        (none, [.postWhisper u attempt,
                .alert "Error" "Failed to transcribe audio."])) := by
  constructor
  · show ((whisperLoop u resp 3 1 3).1, Act.delay 500 :: (whisperLoop u resp 3 1 3).2) = _
    rw [whisperLoop_other u 3 2 h]
  · intro retries attempt fuel hatt
    exact whisperLoop_other u retries fuel hatt

/-- Witness for C3 at a concrete endpoint simulation. -/
theorem whisper_other_error_no_retry_witness :
    sendAudioToWhisper "tape.wav" respOther 3 =
      (none, [.delay 500, .postWhisper "tape.wav" 1,
              .alert "Error" "Failed to transcribe audio."]) :=
  (whisper_other_error_no_retry "tape.wav" respOther rfl).1

/-- Claim C4: with no API credential configured, `startRecording` alerts the
configuration notice and returns with the state unchanged, never requesting
permission, configuring the audio mode, or creating a recording session. -/
theorem start_recording_requires_key (env : Env) (s : ScreenState)
    (h : env.apiKeyPresent = false) :
    startRecording env s =
      (s, [.alert "Configuration Error" "OpenAI API Key is missing."]) ∧
    Act.requestPermission ∉ (startRecording env s).2 ∧
    (∀ b, Act.setAudioMode b ∉ (startRecording env s).2) ∧
    Act.createRecording ∉ (startRecording env s).2 := by
  have e : startRecording env s =
      (s, [.alert "Configuration Error" "OpenAI API Key is missing."]) := by
    simp [startRecording, h]
  refine ⟨e, ?_, ?_, ?_⟩ <;> rw [e] <;> simp

/-- Witness for C4 at a concrete environment with no key. -/
theorem start_recording_requires_key_witness :
    startRecording envNoKey initState =
      (initState, [.alert "Configuration Error" "OpenAI API Key is missing."]) :=
  (start_recording_requires_key envNoKey initState rfl).1

/-- Claim C5: a generation call that settles at or after the 10 s deadline
is aborted, surfaces the timeout notice, clears the loading flag (the state
returns to Idle from Processing) and produces no response; a call that
resolves before the deadline clears the timer and stores and speaks the
text of the first completion. -/
theorem gpt_timeout_and_success (s : ScreenState) (input : String)
    (h1 : s.isRecording = false) (_h2 : s.loading = true)
    (h3 : s.AIResponse = false) (h4 : s.AISpeaking = false) :
    (∀ o, 10000 ≤ settleMs o →
      (sendToGpt o s input).1 = { s with loading := false } ∧
      isIdle (sendToGpt o s input).1 ∧
      Act.abortSignal ∈ (sendToGpt o s input).2 ∧
      Act.alert "Timeout" "The server took too long to respond." ∈ (sendToGpt o s input).2 ∧
      Act.timerClear ∉ (sendToGpt o s input).2 ∧
      (∀ t, Act.speak t ∉ (sendToGpt o s input).2)) ∧
    (∀ c cs atMs, atMs < 10000 →
      (sendToGpt (.resolves (c :: cs) atMs) s input).1.text = c ∧
      (sendToGpt (.resolves (c :: cs) atMs) s input).1.AIResponse = true ∧
      (sendToGpt (.resolves (c :: cs) atMs) s input).1.loading = false ∧
      Act.timerClear ∈ (sendToGpt (.resolves (c :: cs) atMs) s input).2 ∧
      Act.speak c ∈ (sendToGpt (.resolves (c :: cs) atMs) s input).2 ∧
      Act.abortSignal ∉ (sendToGpt (.resolves (c :: cs) atMs) s input).2) := by
  constructor
  · rintro (⟨ch, a⟩ | a) ha
    · simp only [settleMs] at ha
      have hna : ¬ a < 10000 := by omega
      simp [sendToGpt, hna, isIdle, h1, h3, h4]
    · simp only [settleMs] at ha
      have hna : ¬ a < 10000 := by omega
      simp [sendToGpt, hna, isIdle, h1, h3, h4]
  · intro c cs atMs ha
    simp [sendToGpt, speakText, ha]

/-- Witness for C5: a call rejecting at 20 s and a call resolving at 100 ms. -/
theorem gpt_timeout_and_success_witness :
    (sendToGpt (.rejects 20000) procState "q").1 = { procState with loading := false } ∧
    Act.abortSignal ∈ (sendToGpt (.rejects 20000) procState "q").2 ∧
    Act.alert "Timeout" "The server took too long to respond."
      ∈ (sendToGpt (.rejects 20000) procState "q").2 ∧
    (sendToGpt (.resolves ["answer"] 100) procState "q").1.text = "answer" ∧
    Act.timerClear ∈ (sendToGpt (.resolves ["answer"] 100) procState "q").2 := by
  have h := gpt_timeout_and_success procState "q" rfl rfl rfl rfl
  have ht := h.1 (.rejects 20000) (by decide)
  have hs := h.2 "answer" [] 100 (by decide)
  exact ⟨ht.1, ht.2.2.1, ht.2.2.2.1, hs.1, hs.2.2.2.1⟩

/-- Claim C10: when the generation request fails before the 10 s deadline
for a reason other than the abort, the catch handler alerts the generic
failure but never clears the timer, which still fires at 10 s and surfaces
the timeout notice in addition. -/
theorem gpt_error_leaves_timer_armed (s : ScreenState) (input : String)
    (atMs : Nat) (h : atMs < 10000) :
    (sendToGpt (.rejects atMs) s input).2 =
      [.timerStart 10000, .delay 500, .postGpt input,
       .alert "Error" "Failed to get AI response.",
       .abortSignal, .alert "Timeout" "The server took too long to respond."] ∧
    Act.timerClear ∉ (sendToGpt (.rejects atMs) s input).2 := by
  have e : (sendToGpt (.rejects atMs) s input).2 =
      [.timerStart 10000, .delay 500, .postGpt input,
       .alert "Error" "Failed to get AI response.",
       .abortSignal, .alert "Timeout" "The server took too long to respond."] := by
    simp [sendToGpt, h]
  refine ⟨e, ?_⟩
  rw [e]
  simp

/-- Witness for C10: a request rejecting after 1 s. -/
theorem gpt_error_leaves_timer_armed_witness :
    (sendToGpt (.rejects 1000) procState "q").2 =
      [.timerStart 10000, .delay 500, .postGpt "q",
       .alert "Error" "Failed to get AI response.",
       .abortSignal, .alert "Timeout" "The server took too long to respond."] ∧
    Act.timerClear ∉ (sendToGpt (.rejects 1000) procState "q").2 :=
  gpt_error_leaves_timer_armed procState "q" 1000 (by decide)

/-- Claim C6 (code bug): after a successful cycle with transcript "Hello"
and generated response "Hi there!", the displayed `text` is the response,
and pressing regenerate re-invokes the chat endpoint with "Hi there!" —
the displayed response — not with the transcript "Hello"; no recorder
action is performed. -/
theorem regenerate_resubmits_displayed_response :
    Reachable afterHelloCycle ∧
    afterHelloCycle.AIResponse = true ∧
    afterHelloCycle.text = "Hi there!" ∧
    Act.postGpt "Hi there!" ∈ (onRegenerate (.resolves ["Sure."] 0) afterHelloCycle).2 ∧
    Act.postGpt "Hello" ∉ (onRegenerate (.resolves ["Sure."] 0) afterHelloCycle).2 ∧
    Act.requestPermission ∉ (onRegenerate (.resolves ["Sure."] 0) afterHelloCycle).2 ∧
    Act.createRecording ∉ (onRegenerate (.resolves ["Sure."] 0) afterHelloCycle).2 :=
  ⟨Reachable.next _ (Reachable.next _ Reachable.init),
   by decide, by decide, by decide, by decide, by decide, by decide⟩

lemma sendToGpt_isRecording (o : GptOutcome) (s : ScreenState) (t : String) :
    ((sendToGpt o s t).1).isRecording = s.isRecording := by
  rcases o with ⟨ch, a⟩ | a
  · dsimp only [sendToGpt]
    split
    · cases ch <;> rfl
    · rfl
  · dsimp only [sendToGpt]
    split <;> rfl

lemma sendToGpt_loading (o : GptOutcome) (s : ScreenState) (t : String) :
    ((sendToGpt o s t).1).loading = false := by
  rcases o with ⟨ch, a⟩ | a
  · dsimp only [sendToGpt]
    split
    · cases ch <;> rfl
    · rfl
  · dsimp only [sendToGpt]
    split <;> rfl

lemma startRecording_cases (env : Env) (s : ScreenState) :
    (startRecording env s).1 = s ∨
    (startRecording env s).1 = { s with isRecording := true } ∨
    (startRecording env s).1 = { s with isRecording := true, hasRecording := true } := by
  rcases env with ⟨key, perm, am, cr, st, uri, w, g⟩
  cases key <;> cases perm <;> cases am <;> cases cr <;>
    simp [startRecording, getMicrophonePermission]

lemma stopRecording_flags (env : Env) (s : ScreenState) :
    ((stopRecording env s).1).isRecording = false ∧
    ((stopRecording env s).1).loading = false := by
  dsimp only [stopRecording]
  split
  · exact ⟨rfl, rfl⟩
  · split
    · exact ⟨rfl, rfl⟩
    · split
      · split
        · exact ⟨rfl, rfl⟩
        · exact ⟨sendToGpt_isRecording _ _ _, sendToGpt_loading _ _ _⟩
      · exact ⟨rfl, rfl⟩

lemma whisper_none_has_alert (u : String) (resp : Nat → HttpResult) (retries : Nat) :
    ∀ fuel attempt, attempt + fuel = retries + 1 → attempt ≤ retries →
      (whisperLoop u resp retries attempt fuel).1 = none →
      ∃ ti ms, Act.alert ti ms ∈ (whisperLoop u resp retries attempt fuel).2 := by
  intro fuel
  induction fuel with
  | zero => intro attempt hsum hle hnone; omega
  | succ fuel ih =>
    intro attempt hsum hle hnone
    cases hr : resp attempt with
    | ok t =>
      rw [whisperLoop_ok u retries fuel hr] at hnone
      simp at hnone
    | rateLimited =>
      by_cases he : attempt = retries
      · subst he
        rw [whisperLoop_rl_last u fuel hr]
        exact ⟨"Rate Limit Reached",
               "Too many requests. Please wait a moment and try again.", by simp⟩
      · rw [whisperLoop_rl_step u fuel hr he] at hnone ⊢
        simp only at hnone
        obtain ⟨ti, ms, hm⟩ := ih (attempt + 1) (by omega) (by omega) hnone
        exact ⟨ti, ms, by simp [hm]⟩
    | otherError =>
      rw [whisperLoop_other u retries fuel hr]
      exact ⟨"Error", "Failed to transcribe audio.", by simp⟩

lemma sendAudio_none_alert (u : String) (resp : Nat → HttpResult)
    (h : (sendAudioToWhisper u resp 3).1 = none) :
    ∃ ti ms, Act.alert ti ms ∈ (sendAudioToWhisper u resp 3).2 := by
  dsimp only [sendAudioToWhisper] at h ⊢
  obtain ⟨ti, ms, hm⟩ := whisper_none_has_alert u resp 3 3 1 (by omega) (by omega) h
  exact ⟨ti, ms, by simp [hm]⟩

lemma whisper_trace_no_gpt (u : String) (resp : Nat → HttpResult) (retries : Nat) :
    ∀ fuel attempt a, a ∈ (whisperLoop u resp retries attempt fuel).2 →
      isGptPost a = false := by
  intro fuel
  induction fuel with
  | zero => intro attempt a ha; simp [whisperLoop] at ha
  | succ fuel ih =>
    intro attempt a ha
    cases hr : resp attempt with
    | ok t =>
      rw [whisperLoop_ok u retries fuel hr] at ha
      simp at ha
      subst ha
      rfl
    | rateLimited =>
      by_cases he : attempt = retries
      · subst he
        rw [whisperLoop_rl_last u fuel hr] at ha
        simp at ha
        rcases ha with rfl | rfl <;> rfl
      · rw [whisperLoop_rl_step u fuel hr he] at ha
        simp only [List.mem_cons] at ha
        rcases ha with rfl | rfl | ha
        · rfl
        · rfl
        · exact ih (attempt + 1) a ha
    | otherError =>
      rw [whisperLoop_other u retries fuel hr] at ha
      simp at ha
      rcases ha with rfl | rfl <;> rfl

lemma sendAudio_trace_no_gpt (u : String) (resp : Nat → HttpResult) (retries : Nat)
    (a : Act) (ha : a ∈ (sendAudioToWhisper u resp retries).2) :
    isGptPost a = false := by
  dsimp only [sendAudioToWhisper] at ha
  simp only [List.mem_cons] at ha
  rcases ha with rfl | ha
  · rfl
  · exact whisper_trace_no_gpt u resp retries retries 1 a ha

/-- Claim C7 counterexample: when creating the capture session fails, the
catch handler of `startRecording` only alerts; the recording flag stays
set, so this error path does not reset the state machine to Idle. -/
theorem start_failure_leaves_recording_flag :
    Act.alert "Error" "Failed to start recording."
      ∈ (startRecording envStartFail initState).2 ∧
    ((startRecording envStartFail initState).1).isRecording = true ∧
    ¬ isIdle ((startRecording envStartFail initState).1) := by decide

/-- Claim C7 amended: every error path surfaces a notice, and every error
path except the recording-start failure also leaves the recording and
loading flags cleared; the recording-start failure path (capture creation
failing after the flag is set) leaves `isRecording` set. -/
theorem error_paths_surface_and_reset (env : Env) (s : ScreenState) :
    (env.apiKeyPresent = true → env.permission = .denied →
      startRecording env s =
        (s, [.requestPermission,
             .alert "Permission" "Please grant permission to access the microphone."])) ∧
    (env.stopOk = false →
      ((stopRecording env s).1).isRecording = false ∧
      ((stopRecording env s).1).loading = false ∧
      Act.alert "Error" "Failed to process recording." ∈ (stopRecording env s).2) ∧
    (∀ u, env.stopOk = true → s.hasRecording = true → env.uri = some u →
      (sendAudioToWhisper u env.whisper 3).1 = none →
      (stopRecording env s).1 = { s with isRecording := false, loading := false } ∧
      ∃ ti ms, Act.alert ti ms ∈ (stopRecording env s).2) ∧
    (∀ input atMs, atMs < 10000 →
      (sendToGpt (.rejects atMs) s input).1 = { s with loading := false } ∧
      Act.alert "Error" "Failed to get AI response."
        ∈ (sendToGpt (.rejects atMs) s input).2) ∧
    (env.apiKeyPresent = true → env.permission = .granted → env.audioModeOk = true →
      env.createRecordingOk = false →
      (startRecording env s).1 = { s with isRecording := true } ∧
      Act.alert "Error" "Failed to start recording." ∈ (startRecording env s).2) := by
  refine ⟨?_, ?_, ?_, ?_, ?_⟩
  · intro hk hp
    simp [startRecording, getMicrophonePermission, hk, hp]
  · intro hst
    refine ⟨?_, ?_, ?_⟩ <;> simp [stopRecording, hst]
  · intro u hst hrec hu hw
    have hs : ¬ env.stopOk = false := by simp [hst]
    constructor
    · simp [stopRecording, hs, hrec, hu, hw]
    · obtain ⟨ti, ms, hm⟩ := sendAudio_none_alert u env.whisper hw
      exact ⟨ti, ms, by simp [stopRecording, hs, hrec, hu, hw, hm]⟩
  · intro input atMs hlt
    constructor <;> simp [sendToGpt, hlt]
  · intro hk hp ham hcr
    constructor <;> simp [startRecording, getMicrophonePermission, hk, hp, ham, hcr]

/-- Witness for C7 at a denied-permission environment. -/
theorem error_paths_surface_and_reset_witness :
    startRecording envDenied initState =
      (initState, [.requestPermission,
                   .alert "Permission" "Please grant permission to access the microphone."]) :=
  (error_paths_surface_and_reset envDenied initState).1 rfl rfl

/-- Claim C8 counterexample: the transcript check is a JS truthiness test,
so a transcription that succeeds with the empty string is treated like a
failure: no chat request is issued even though transcription succeeded. -/
theorem empty_transcript_skips_gpt :
    (sendAudioToWhisper "file.wav" envEmptyTranscript.whisper 3).1 = some "" ∧
    (stopRecording envEmptyTranscript recState).2.all (fun a => !(isGptPost a)) = true ∧
    ((stopRecording envEmptyTranscript recState).1).loading = false := by decide

/-- Claim C8 amended: after stop, transcription runs first and the chat
request is issued if and only if transcription returns a non-empty
transcript; on a transcription failure or an empty transcript no chat
request is issued and the loading flag is cleared. -/
theorem stop_gpt_iff_nonempty_transcript (env : Env) (s : ScreenState) (u : String)
    (hstop : env.stopOk = true) (hrec : s.hasRecording = true)
    (hu : env.uri = some u) :
    ((sendAudioToWhisper u env.whisper 3).1 = none →
      (stopRecording env s).2 =
        [.stopAndUnload, .setAudioMode false] ++ (sendAudioToWhisper u env.whisper 3).2 ∧
      (∀ a ∈ (stopRecording env s).2, isGptPost a = false) ∧
      ((stopRecording env s).1).loading = false) ∧
    ((sendAudioToWhisper u env.whisper 3).1 = some "" →
      (stopRecording env s).2 =
        [.stopAndUnload, .setAudioMode false] ++ (sendAudioToWhisper u env.whisper 3).2 ∧
      (∀ a ∈ (stopRecording env s).2, isGptPost a = false) ∧
      ((stopRecording env s).1).loading = false) ∧
    (∀ t, (sendAudioToWhisper u env.whisper 3).1 = some t → t ≠ "" →
      (stopRecording env s).2 =
        [.stopAndUnload, .setAudioMode false] ++ (sendAudioToWhisper u env.whisper 3).2 ++
          (sendToGpt env.gpt { s with isRecording := false, loading := true, text := t } t).2 ∧
      (stopRecording env s).1 =
        (sendToGpt env.gpt { s with isRecording := false, loading := true, text := t } t).1 ∧
      Act.postGpt t
        ∈ (sendToGpt env.gpt { s with isRecording := false, loading := true, text := t } t).2) := by
  have hs : ¬ env.stopOk = false := by simp [hstop]
  refine ⟨?_, ?_, ?_⟩
  · intro hw
    have e : (stopRecording env s).2 =
        [.stopAndUnload, .setAudioMode false] ++ (sendAudioToWhisper u env.whisper 3).2 := by
      simp [stopRecording, hs, hrec, hu, hw]
    refine ⟨e, ?_, ?_⟩
    · intro a ha
      rw [e] at ha
      simp only [List.mem_append, List.mem_cons, List.not_mem_nil, or_false] at ha
      rcases ha with (rfl | rfl) | ha
      · rfl
      · rfl
      · exact sendAudio_trace_no_gpt u env.whisper 3 a ha
    · simp [stopRecording, hs, hrec, hu, hw]
  · intro hw
    have e : (stopRecording env s).2 =
        [.stopAndUnload, .setAudioMode false] ++ (sendAudioToWhisper u env.whisper 3).2 := by
      simp [stopRecording, hs, hrec, hu, hw]
    refine ⟨e, ?_, ?_⟩
    · intro a ha
      rw [e] at ha
      simp only [List.mem_append, List.mem_cons, List.not_mem_nil, or_false] at ha
      rcases ha with (rfl | rfl) | ha
      · rfl
      · rfl
      · exact sendAudio_trace_no_gpt u env.whisper 3 a ha
    · simp [stopRecording, hs, hrec, hu, hw]
  · intro t hw ht
    refine ⟨?_, ?_, ?_⟩
    · simp [stopRecording, hs, hrec, hu, hw, ht]
    · simp [stopRecording, hs, hrec, hu, hw, ht]
    · rcases env.gpt with ⟨ch, a⟩ | a
      · dsimp only [sendToGpt]
        split
        · cases ch <;> simp
        · simp
      · dsimp only [sendToGpt]
        split <;> simp

/-- Witness for C8 at the successful "Hello" environment. -/
theorem stop_gpt_iff_nonempty_transcript_witness :
    (stopRecording envHello recState).2 =
      [.stopAndUnload, .setAudioMode false] ++
        (sendAudioToWhisper "file.wav" envHello.whisper 3).2 ++
        (sendToGpt envHello.gpt
          { recState with isRecording := false, loading := true, text := "Hello" } "Hello").2 ∧
    (stopRecording envHello recState).1 =
      (sendToGpt envHello.gpt
        { recState with isRecording := false, loading := true, text := "Hello" } "Hello").1 ∧
    Act.postGpt "Hello"
      ∈ (sendToGpt envHello.gpt
          { recState with isRecording := false, loading := true, text := "Hello" } "Hello").2 :=
  (stop_gpt_iff_nonempty_transcript envHello recState "file.wav" rfl rfl rfl).2.2
    "Hello" (by decide) (by decide)

/-- Claim C9 counterexample: pressing back while the response is being
spoken clears `AIResponse` but not `AISpeaking`, reaching a flag
combination outside the five valid states. -/
theorem speaking_flag_outlives_response :
    Reachable afterBackDuringSpeech ∧ ¬ validFive afterBackDuringSpeech :=
  ⟨Reachable.next _ (Reachable.next _ (Reachable.next _ Reachable.init)), by decide⟩

/-- Claim C9 amended: in every reachable state the three flags
`isRecording`, `loading`, `AIResponse` form one of the four combinations
Idle, Recording, Processing, ResponseReady; the `AISpeaking` flag is not
synchronized with them, so the four-flag combination can leave the five
valid states. -/
theorem reachable_core_flags_valid (s : ScreenState) (h : Reachable s) :
    coreValid s := by
  induction h with
  | init => decide
  | next e h ih =>
    rename_i s'
    cases e with
    | pressMic env =>
      simp only [step]
      by_cases hm : micVisible s' = true
      · simp only [hm, if_true]
        simp only [micVisible, Bool.and_eq_true, Bool.not_eq_true'] at hm
        rcases startRecording_cases env s' with hc | hc | hc <;>
          rw [hc] <;> simp [coreValid, hm.1.1, hm.1.2, hm.2]
      · simp only [hm, if_false]
        exact ih
    | pressStop env =>
      simp only [step]
      by_cases hv : stopVisible s' = true
      · simp only [hv, if_true]
        have hf := stopRecording_flags env s'
        cases hA : ((stopRecording env s').1).AIResponse <;>
          simp [coreValid, hf.1, hf.2, hA]
      · simp only [hv, if_false]
        exact ih
    | pressBack =>
      simp only [step]
      by_cases hA : s'.AIResponse = true
      · have hl : s'.loading = false := by
          rcases ih with ⟨_, _, h3⟩ | ⟨_, _, h3⟩ | ⟨_, _, h3⟩ | ⟨_, h2, _⟩
          · exact absurd hA (by simp [h3])
          · exact absurd hA (by simp [h3])
          · exact absurd hA (by simp [h3])
          · exact h2
        simp [hA, coreValid, hl]
      · simp only [Bool.not_eq_true] at hA
        simp [hA, ih]
    | pressRegenerate o =>
      simp only [step]
      by_cases hA : s'.AIResponse = true
      · have hr : s'.isRecording = false := by
          rcases ih with ⟨h1, _, h3⟩ | ⟨_, _, h3⟩ | ⟨h1, _, h3⟩ | ⟨h1, _, _⟩
          · exact h1
          · exact absurd hA (by simp [h3])
          · exact h1
          · exact h1
        simp only [hA, if_true, onRegenerate]
        cases hA2 : ((sendToGpt o s' s'.text).1).AIResponse <;>
          simp [coreValid, sendToGpt_isRecording, sendToGpt_loading, hr, hA2]
      · simp only [Bool.not_eq_true] at hA
        simp [hA, ih]
    | pressReload =>
      simp only [step]
      by_cases hA : s'.AIResponse = true
      · simp only [hA, if_true, speakText]
        rcases ih with ⟨h1, h2, h3⟩ | ⟨h1, h2, h3⟩ | ⟨h1, h2, h3⟩ | ⟨h1, h2, h3⟩
        · exact absurd hA (by simp [h3])
        · exact absurd hA (by simp [h3])
        · exact absurd hA (by simp [h3])
        · simp [coreValid, h1, h2, h3]
      · simp only [Bool.not_eq_true] at hA
        simp [hA, ih]
    | speechDone =>
      simp only [step]
      rcases ih with ⟨h1, h2, h3⟩ | ⟨h1, h2, h3⟩ | ⟨h1, h2, h3⟩ | ⟨h1, h2, h3⟩ <;>
        simp [coreValid, h1, h2, h3]

/-- Witness for C9 at the reachable state of the counterexample. -/
theorem reachable_core_flags_valid_witness : coreValid afterBackDuringSpeech :=
  reachable_core_flags_valid afterBackDuringSpeech
    (Reachable.next _ (Reachable.next _ (Reachable.next _ Reachable.init)))
